import Mathlib

/-!
Verification of the claudegate job-gateway against its source.

The definitions below are shallow embeddings of the Go source:

* `ClaudeGate.Status`, `ClaudeGate.Job`, `ClaudeGate.CreateRequest` —
  `internal/job/model.go` (src/unnamed/part_005);
* `ClaudeGate.stripCodeFences` — `internal/queue/queue.go`
  (src/unnamed/part_014, stripCodeFences, lines 273–286), over `List Char`
  with Go's `strings.TrimSpace` / `HasPrefix` / `Index` / `TrimSuffix`
  modelled on lists;
* `ClaudeGate.validateURL`, `ClaudeGate.send`, `ClaudeGate.jitterBound` —
  `internal/webhook/webhook.go` (src/unnamed/part_006: 8 attempts,
  full-jitter backoff — the newer of the two webhook snapshots present in
  the repository, the one the specification declares authoritative);
* `ClaudeGate.enqueue`, `ClaudeGate.processJob` — `internal/queue/queue.go`
  (src/unnamed/part_014);
* `ClaudeGate.updateStatus`, `ClaudeGate.listJobs` — the `SQLiteStore`
  methods `UpdateStatus` and `List` (the implementation embedded in
  src/internal/job/sqlite_test.go), with the database table modelled as a
  `List Job` and `time.Now()` passed explicitly;
* `ClaudeGate.createJob` — `internal/api/handler.go` `CreateJob`;
* `ClaudeGate.streamSSE` — the terminal-status dispatch of `StreamSSE`
  (src/unnamed/part_008).

Machine integers do not overflow in any modelled path (attempt counters stay
below 8, durations below 2^63), so `Nat`/`Int` are used directly.
-/

namespace ClaudeGate

/-- Job status, from `internal/job/model.go`: `queued`, `processing`,
`completed`, `failed`, `cancelled`. -/
inductive Status where
  | queued
  | processing
  | completed
  | failed
  | cancelled
deriving DecidableEq, Repr

/-- `Status.IsTerminal` from `internal/job/model.go`:
`s == StatusCompleted || s == StatusFailed || s == StatusCancelled`. -/
def Status.isTerminal (s : Status) : Bool :=
  s = Status.completed ∨ s = Status.failed ∨ s = Status.cancelled

/-- The persisted `Job` record from `internal/job/model.go`.  Timestamps are
modelled as `Nat` (UTC instants); `metadata` is kept as an opaque string of
JSON bytes. -/
structure Job where
  id : String
  prompt : String
  systemPrompt : String
  model : String
  status : Status
  result : String
  error : String
  callbackURL : String
  metadata : String
  responseFormat : String
  createdAt : Nat
  startedAt : Option Nat
  completedAt : Option Nat
deriving DecidableEq, Repr

/-- `CreateRequest` from `internal/job/model.go`. -/
structure CreateRequest where
  prompt : String
  systemPrompt : String
  model : String
  callbackURL : String
  metadata : String
  responseFormat : String
deriving DecidableEq, Repr

/-- The `validModels` map from `internal/job/model.go`. -/
def validModel (m : String) : Bool :=
  m = "haiku" ∨ m = "sonnet" ∨ m = "opus"

/-- `CreateRequest.Validate` from `internal/job/model.go`: prompt non-empty;
model, when set, one of haiku/sonnet/opus; response_format one of
`""`/`text`/`json`.  The error strings are the Go error messages. -/
def CreateRequest.validate (r : CreateRequest) : Except String Unit :=
  if r.prompt = "" then
    Except.error "prompt must not be empty"
  else if r.model ≠ "" ∧ ¬ validModel r.model then
    Except.error "model must be one of: haiku, sonnet, opus"
  else if r.responseFormat ≠ "" ∧ r.responseFormat ≠ "text" ∧ r.responseFormat ≠ "json" then
    Except.error "response_format must be 'text' or 'json'"
  else
    Except.ok ()

/-! ### stripCodeFences (`internal/queue/queue.go`)

Strings are modelled as `List Char`.  `isGoSpace` is Go's `unicode.IsSpace`
restricted to the Latin-1 range (`\t`, `\n`, `\v`, `\f`, `\r`, space,
U+0085, U+00A0); the inputs of interest contain only ASCII. -/

/-- Whitespace predicate of Go's `strings.TrimSpace` (Latin-1 range of
`unicode.IsSpace`). -/
def isGoSpace (c : Char) : Bool :=
  c = ' ' ∨ c = '\t' ∨ c = '\n' ∨ c = Char.ofNat 11 ∨ c = Char.ofNat 12 ∨
    c = '\r' ∨ c = Char.ofNat 0x85 ∨ c = Char.ofNat 0xA0

/-- Left half of `strings.TrimSpace`. -/
def trimLeft (s : List Char) : List Char :=
  s.dropWhile isGoSpace

/-- Right half of `strings.TrimSpace`. -/
def trimRight (s : List Char) : List Char :=
  (s.reverse.dropWhile isGoSpace).reverse

/-- Go's `strings.TrimSpace` on `List Char`. -/
def goTrimSpace (s : List Char) : List Char :=
  trimRight (trimLeft s)

/-- The triple-backtick fence marker. -/
def fence : List Char := ['`', '`', '`']

/-- Go's `strings.TrimSuffix(s, "` ++ "```" ++ `")` on `List Char`. -/
def dropFenceAtEnd (s : List Char) : List Char :=
  if fence.isSuffixOf s then s.take (s.length - 3) else s

/-- `stripCodeFences` from `internal/queue/queue.go`: trim space; if the
text starts with a fence, drop through the first newline, drop a trailing
fence, and trim again; otherwise return the trimmed text. -/
def stripCodeFences (s : List Char) : List Char :=
  let s₁ := goTrimSpace s
  if fence.isPrefixOf s₁ then
    let s₂ := match s₁.findIdx? (fun c => c = '\n') with
      | some idx => s₁.drop (idx + 1)
      | none => s₁
    goTrimSpace (dropFenceAtEnd s₂)
  else s₁

/-- `trimRight` coincides with Mathlib's `List.rdropWhile`. -/
theorem trimRight_eq_rdropWhile (s : List Char) :
    trimRight s = s.rdropWhile isGoSpace := rfl

/-- Right-trimming preserves an already left-trimmed list's left-trimmedness:
`trimRight x` is a prefix of `x`, so its head (if any) is the head of `x`. -/
theorem trimLeft_trimRight (x : List Char) (h : trimLeft x = x) :
    trimLeft (trimRight x) = trimRight x := by
  have hpre : trimRight x <+: x := by
    rw [trimRight_eq_rdropWhile]
    exact List.rdropWhile_prefix _ _
  cases htr : trimRight x with
  | nil => simp [trimLeft]
  | cons a l =>
    rw [htr] at hpre
    obtain ⟨t, ht⟩ := hpre
    have hx : x = a :: (l ++ t) := by rw [← ht]; simp
    have hpa : isGoSpace a = false := by
      by_contra hcon
      have hpa' : isGoSpace a = true := by
        revert hcon; cases isGoSpace a <;> simp
      rw [hx, trimLeft, List.dropWhile_cons, if_pos hpa'] at h
      have hlen := congrArg List.length h
      have hle : ((l ++ t).dropWhile isGoSpace).length ≤ (l ++ t).length :=
        (List.dropWhile_sublist isGoSpace).length_le
      simp only [List.length_cons] at hlen
      omega
    rw [trimLeft, List.dropWhile_cons, if_neg (by simp [hpa])]

/-- `goTrimSpace` is idempotent. -/
theorem goTrimSpace_idem (s : List Char) :
    goTrimSpace (goTrimSpace s) = goTrimSpace s := by
  unfold goTrimSpace
  have h1 : trimLeft (trimLeft s) = trimLeft s :=
    List.dropWhile_idempotent isGoSpace s
  rw [trimLeft_trimRight (trimLeft s) h1, trimRight_eq_rdropWhile,
    trimRight_eq_rdropWhile]
  exact List.rdropWhile_idempotent _ _

/-- The output of `stripCodeFences` is already whitespace-trimmed. -/
theorem goTrimSpace_stripCodeFences (s : List Char) :
    goTrimSpace (stripCodeFences s) = stripCodeFences s := by
  unfold stripCodeFences
  by_cases h : fence.isPrefixOf (goTrimSpace s)
  · simp only [h, if_true, goTrimSpace_idem]
  · simp only [h, if_false, Bool.false_eq_true, goTrimSpace_idem]

/-- On a trimmed input that does not begin with a fence, `stripCodeFences`
is the identity. -/
theorem stripCodeFences_eq_self (t : List Char) (ht : goTrimSpace t = t)
    (h : fence.isPrefixOf t = false) : stripCodeFences t = t := by
  unfold stripCodeFences
  simp [ht, h]

/-- C5 (amended): applying `stripCodeFences` twice equals applying it once
for every input whose once-stripped form does not itself begin with a
triple-backtick fence.  (Unconditional idempotence fails: see the
counterexample on six backticks.) -/
theorem stripCodeFences_idem_of_no_refence (s : List Char)
    (h : fence.isPrefixOf (stripCodeFences s) = false) :
    stripCodeFences (stripCodeFences s) = stripCodeFences s :=
  stripCodeFences_eq_self _ (goTrimSpace_stripCodeFences s) h

/-- C5 counterexample: on the six-character input of six backticks,
`stripCodeFences` first yields three backticks and a second application
yields the empty string, so double application differs from single. -/
theorem stripCodeFences_not_idempotent :
    stripCodeFences (stripCodeFences ['`', '`', '`', '`', '`', '`']) ≠
      stripCodeFences ['`', '`', '`', '`', '`', '`'] := by decide

/-- C5 witness: a concrete fenced JSON payload for which the amended
idempotence theorem applies. -/
theorem stripCodeFences_idem_witness :
    fence.isPrefixOf
        (stripCodeFences ['`', '`', '`', 'j', '\n', 'h', 'i', '`', '`', '`']) = false ∧
      stripCodeFences
          (stripCodeFences ['`', '`', '`', 'j', '\n', 'h', 'i', '`', '`', '`']) =
        stripCodeFences ['`', '`', '`', 'j', '\n', 'h', 'i', '`', '`', '`'] :=
  ⟨by decide, stripCodeFences_idem_of_no_refence _ (by decide)⟩

/-! ### Webhook dispatcher (`internal/webhook/webhook.go`, src/unnamed/part_006)

IPv4 addresses model the resolved hosts; the classification predicates are
the `net.IP` methods restricted to IPv4, as used by `validateURL`.  DNS
resolution (`net.LookupHost`) is an oracle `String → Option (List IPv4)`
(`none` models a lookup error).  `rand.Int63n(n)` is modelled as an
underlying random draw reduced into `[0, n)`. -/

/-- An IPv4 address as four octets. -/
structure IPv4 where
  a : Nat
  b : Nat
  c : Nat
  d : Nat
deriving DecidableEq, Repr

/-- `net.IP.IsLoopback` for IPv4: `127.0.0.0/8`. -/
def IPv4.isLoopback (ip : IPv4) : Bool := ip.a = 127

/-- `net.IP.IsPrivate` for IPv4: `10.0.0.0/8`, `172.16.0.0/12`,
`192.168.0.0/16`. -/
def IPv4.isPrivate (ip : IPv4) : Bool :=
  ip.a = 10 ∨ (ip.a = 172 ∧ 16 ≤ ip.b ∧ ip.b ≤ 31) ∨ (ip.a = 192 ∧ ip.b = 168)

/-- `net.IP.IsLinkLocalUnicast` for IPv4: `169.254.0.0/16`. -/
def IPv4.isLinkLocalUnicast (ip : IPv4) : Bool := ip.a = 169 ∧ ip.b = 254

/-- `net.IP.IsLinkLocalMulticast` for IPv4: `224.0.0.0/24`. -/
def IPv4.isLinkLocalMulticast (ip : IPv4) : Bool :=
  ip.a = 224 ∧ ip.b = 0 ∧ ip.c = 0

/-- `net.IP.IsUnspecified` for IPv4: `0.0.0.0`. -/
def IPv4.isUnspecified (ip : IPv4) : Bool :=
  ip.a = 0 ∧ ip.b = 0 ∧ ip.c = 0 ∧ ip.d = 0

/-- The blocked-address test of `validateURL`'s loop body:
loopback, private, link-local (unicast or multicast), or unspecified. -/
def isBlockedIP (ip : IPv4) : Bool :=
  ip.isLoopback || ip.isPrivate || ip.isLinkLocalUnicast ||
    ip.isLinkLocalMulticast || ip.isUnspecified

/-- A parsed callback URL: the `u.Scheme` and `u.Hostname()` that
`validateURL` inspects. -/
structure URL where
  scheme : String
  host : String
deriving DecidableEq, Repr

/-- The distinct rejection reasons of `validateURL`. -/
inductive VErr where
  | unsupportedScheme
  | dnsFailure
  | blockedIP (ip : IPv4)
deriving DecidableEq, Repr

/-- `validateURL` from `internal/webhook/webhook.go`: reject any scheme
other than http/https; resolve the host (lookup failure rejects); reject
at the first resolved address that is loopback, private, link-local, or
unspecified. -/
def validateURL (resolve : String → Option (List IPv4)) (u : URL) :
    Except VErr Unit :=
  if u.scheme ≠ "https" ∧ u.scheme ≠ "http" then
    Except.error VErr.unsupportedScheme
  else
    match resolve u.host with
    | none => Except.error VErr.dnsFailure
    | some ips =>
      match ips.find? isBlockedIP with
      | some ip => Except.error (VErr.blockedIP ip)
      | none => Except.ok ()

/-- `retryAttempts` constant from `internal/webhook/webhook.go`. -/
def retryAttempts : Nat := 8

/-- `retryBase` (`time.Second`) in nanoseconds. -/
def retryBase : Nat := 1000000000

/-- `retryCap` (`5 * time.Minute`) in nanoseconds. -/
def retryCap : Nat := 300000000000

/-- The sleep bound computed inside `jitter`:
`exp := retryBase * (1 << attempt); if exp > retryCap { exp = retryCap }`. -/
def jitterBound (attempt : Nat) : Nat :=
  let exp := retryBase * 2 ^ attempt
  if exp > retryCap then retryCap else exp

/-- `jitter(attempt)` = `rand.Int63n(jitterBound attempt)`: the random
source `rnd` supplies the underlying draw, reduced into
`[0, jitterBound attempt)`. -/
def jitterDraw (rnd : Nat → Nat) (attempt : Nat) : Nat :=
  rnd attempt % jitterBound attempt

/-- Failure test of one delivery attempt, from `post`: a transport error
(`Except.error`) or any response status `< 200` or `≥ 300` fails. -/
def postFails (resp : Except Unit Nat) : Bool :=
  match resp with
  | Except.error _ => true
  | Except.ok code => decide (code < 200) || decide (300 ≤ code)

/-- Observable outcome of the `send` retry loop: how many POST attempts
ran, whether one succeeded, and the sequence of jitter sleeps performed. -/
structure SendTrace where
  attempts : Nat
  delivered : Bool
  sleeps : List Nat
deriving DecidableEq, Repr

/-- The body of `send`'s `for attempt := 1; attempt <= retryAttempts`
loop, with `rem` attempts remaining; sleeps only between attempts
(`if attempt < retryAttempts`). -/
def sendLoop (post : Nat → Except Unit Nat) (rnd : Nat → Nat) :
    Nat → Nat → SendTrace
  | _, 0 => ⟨0, false, []⟩
  | attempt, rem + 1 =>
    if postFails (post attempt) then
      if rem = 0 then ⟨1, false, []⟩
      else
        let t := sendLoop post rnd (attempt + 1) rem
        ⟨t.attempts + 1, t.delivered, jitterDraw rnd attempt :: t.sleeps⟩
    else ⟨1, true, []⟩

/-- `send` from `internal/webhook/webhook.go`: up to `retryAttempts`
attempts starting at attempt 1. -/
def send (post : Nat → Except Unit Nat) (rnd : Nat → Nat) : SendTrace :=
  sendLoop post rnd 1 retryAttempts

/-- The jitter sleeps taken after failed attempts `1, …, n`. -/
def jitterSleeps (rnd : Nat → Nat) (n : Nat) : List Nat :=
  (List.range n).map (fun i => jitterDraw rnd (i + 1))

/-- `webhook.Send`: validate the URL synchronously, then either drop the
payload (`none`) or run the retry loop. -/
def webhookSend (resolve : String → Option (List IPv4)) (u : URL)
    (post : Nat → Except Unit Nat) (rnd : Nat → Nat) : Option SendTrace :=
  match validateURL resolve u with
  | Except.error _ => none
  | Except.ok _ => some (send post rnd)


theorem jitter_map_range_succ (rnd : Nat → Nat) (attempt r : Nat) :
    (List.range (r + 1)).map (fun i => jitterDraw rnd (attempt + i)) =
      jitterDraw rnd attempt ::
        (List.range r).map (fun i => jitterDraw rnd (attempt + 1 + i)) := by
  have hfg : ((fun i => jitterDraw rnd (attempt + i)) ∘ Nat.succ)
      = (fun i => jitterDraw rnd (attempt + 1 + i)) := by
    funext i
    simp only [Function.comp_apply]
    congr 1
    omega
  rw [List.range_succ_eq_map, List.map_cons, List.map_map, hfg]
  simp

theorem sendLoop_attempts_le (post : Nat → Except Unit Nat) (rnd : Nat → Nat) :
    ∀ rem attempt, (sendLoop post rnd attempt rem).attempts ≤ rem := by
  intro rem
  induction rem with
  | zero => intro attempt; simp [sendLoop]
  | succ r ih =>
    intro attempt
    rw [sendLoop]
    by_cases h : postFails (post attempt)
    · simp only [h, if_true]
      by_cases hr : r = 0
      · simp [hr]
      · simp only [hr, if_false]
        exact Nat.succ_le_succ (ih (attempt + 1))
    · simp only [h, Bool.false_eq_true, if_false]
      omega
  
theorem sendLoop_all_fail (post : Nat → Except Unit Nat) (rnd : Nat → Nat) :
    ∀ rem attempt, 1 ≤ rem →
      (∀ j, attempt ≤ j → j < attempt + rem → postFails (post j) = true) →
      sendLoop post rnd attempt rem =
        ⟨rem, false, (List.range (rem - 1)).map (fun i => jitterDraw rnd (attempt + i))⟩ := by
  intro rem
  induction rem with
  | zero => intro attempt h; omega
  | succ r ih =>
    intro attempt _ hfail
    rw [sendLoop]
    have h0 : postFails (post attempt) = true := hfail attempt (le_refl _) (by omega)
    simp only [h0, if_true]
    by_cases hr : r = 0
    · subst hr; simp
    · simp only [hr, if_false]
      have hrec := ih (attempt + 1) (by omega) (fun j h1 h2 => hfail j (by omega) (by omega))
      rw [hrec]
      obtain ⟨r', rfl⟩ : ∃ r', r = r' + 1 := ⟨r - 1, by omega⟩
      simp only [Nat.add_sub_cancel]
      congr 1
      rw [jitter_map_range_succ]

theorem sendLoop_first_success (post : Nat → Except Unit Nat) (rnd : Nat → Nat) :
    ∀ rem attempt k, attempt ≤ k → k < attempt + rem →
      (∀ j, attempt ≤ j → j < k → postFails (post j) = true) →
      postFails (post k) = false →
      sendLoop post rnd attempt rem =
        ⟨k + 1 - attempt, true, (List.range (k - attempt)).map (fun i => jitterDraw rnd (attempt + i))⟩ := by
  intro rem
  induction rem with
  | zero => intro attempt k h1 h2; omega
  | succ r ih =>
    intro attempt k h1 h2 hfail hsucc
    rw [sendLoop]
    by_cases hk : k = attempt
    · subst hk
      simp [hsucc]
    · have h0 : postFails (post attempt) = true := hfail attempt (le_refl _) (by omega)
      simp only [h0, if_true]
      have hr : r ≠ 0 := by omega
      simp only [hr, if_false]
      have hrec := ih (attempt + 1) k (by omega) (by omega)
        (fun j hj1 hj2 => hfail j (by omega) hj2) hsucc
      rw [hrec]
      dsimp only
      obtain ⟨m, hm⟩ : ∃ m, k - attempt = m + 1 := ⟨k - attempt - 1, by omega⟩
      rw [hm]
      have hm2 : k - (attempt + 1) = m := by omega
      rw [hm2]
      congr 1
      · omega
      rw [jitter_map_range_succ]


theorem jitterSleeps_shift (rnd : Nat → Nat) (n : Nat) :
    (List.range n).map (fun i => jitterDraw rnd (1 + i)) = jitterSleeps rnd n := by
  unfold jitterSleeps
  have h : (fun i => jitterDraw rnd (1 + i)) = (fun i => jitterDraw rnd (i + 1)) := by
    funext i
    congr 1
    omega
  rw [h]

theorem jitterBound_pos (a : Nat) : 0 < jitterBound a := by
  unfold jitterBound retryBase retryCap
  dsimp only
  split <;> positivity

/-- C3: the webhook retry loop performs at most 8 POST attempts, stops at
the first success, sleeps a full-jitter duration between consecutive
attempts drawn from `[0, min(cap, base * 2 ^ attempt))` with base one second
and cap five minutes, and an attempt fails exactly on a transport error or a
status outside [200, 300). -/
theorem webhook_send_spec (post : Nat → Except Unit Nat) (rnd : Nat → Nat) :
    (send post rnd).attempts ≤ retryAttempts
    ∧ (∀ k, 1 ≤ k → k ≤ retryAttempts →
        (∀ j, 1 ≤ j → j < k → postFails (post j) = true) →
        postFails (post k) = false →
        send post rnd = ⟨k, true, jitterSleeps rnd (k - 1)⟩)
    ∧ ((∀ j, 1 ≤ j → j ≤ retryAttempts → postFails (post j) = true) →
        send post rnd = ⟨retryAttempts, false, jitterSleeps rnd (retryAttempts - 1)⟩)
    ∧ (∀ a, jitterDraw rnd a < jitterBound a)
    ∧ (∀ a, jitterBound a = min retryCap (retryBase * 2 ^ a))
    ∧ (∀ a d, d < jitterBound a → jitterDraw (fun _ => d) a = d) := by
  refine ⟨?_, ?_, ?_, ?_, ?_, ?_⟩
  · exact sendLoop_attempts_le post rnd retryAttempts 1
  · intro k hk1 hk8 hfail hsucc
    have h := sendLoop_first_success post rnd retryAttempts 1 k hk1
      (by unfold retryAttempts at hk8 ⊢; omega)
      (fun j hj1 hj2 => hfail j hj1 hj2) hsucc
    rw [send, h]
    have hk : k + 1 - 1 = k := by omega
    rw [hk, jitterSleeps_shift]
  · intro hfail
    have h := sendLoop_all_fail post rnd retryAttempts 1 (by unfold retryAttempts; omega)
      (fun j hj1 hj2 => hfail j hj1 (by unfold retryAttempts at hj2 ⊢; omega))
    rw [send, h, jitterSleeps_shift]
  · intro a
    exact Nat.mod_lt _ (jitterBound_pos a)
  · intro a
    unfold jitterBound
    by_cases h : retryBase * 2 ^ a > retryCap
    · simp only [h, if_true]
      exact (min_eq_left (le_of_lt h)).symm
    · simp only [h, if_false]
      exact (min_eq_right (by omega)).symm
  · intro a d h
    exact Nat.mod_eq_of_lt h

/-- C3 witness: a POST that fails once and succeeds on attempt two yields
exactly two attempts, delivery, and one jitter sleep. -/
theorem webhook_send_spec_witness :
    send (fun j => if j = 2 then Except.ok 204 else Except.error ()) (fun i => 7 * i) =
      ⟨2, true, jitterSleeps (fun i => 7 * i) 1⟩ :=
  (webhook_send_spec _ _).2.1 2 (by decide) (by decide)
    (fun j h1 h2 => by
      have hj : j = 1 := by omega
      subst hj
      decide)
    (by decide)

/-- C8: `validateURL` rejects every non-http(s) scheme, rejects whenever a
resolved address is loopback, private, link-local or unspecified, and
accepts only when the scheme is http or https and every resolved address is
public. -/
theorem validateURL_resolve_eq (resolve : String → Option (List IPv4)) (u : URL)
    (ips : List IPv4) (hs : ¬(u.scheme ≠ "https" ∧ u.scheme ≠ "http"))
    (hres : resolve u.host = some ips) :
    validateURL resolve u =
      match ips.find? isBlockedIP with
      | some ip => Except.error (VErr.blockedIP ip)
      | none => Except.ok () := by
  rw [validateURL, if_neg hs, hres]

theorem validateURL_spec (resolve : String → Option (List IPv4)) (u : URL) :
    (u.scheme ≠ "http" ∧ u.scheme ≠ "https" →
      validateURL resolve u = Except.error VErr.unsupportedScheme)
    ∧ (∀ ips ip, resolve u.host = some ips → ip ∈ ips → isBlockedIP ip = true →
        ∃ e, validateURL resolve u = Except.error e)
    ∧ (validateURL resolve u = Except.ok () →
        (u.scheme = "http" ∨ u.scheme = "https") ∧
          ∃ ips, resolve u.host = some ips ∧ ∀ ip ∈ ips, isBlockedIP ip = false) := by
  refine ⟨?_, ?_, ?_⟩
  · intro h
    rw [validateURL, if_pos ⟨h.2, h.1⟩]
  · intro ips ip hres hmem hblocked
    by_cases hs : u.scheme ≠ "https" ∧ u.scheme ≠ "http"
    · exact ⟨_, by rw [validateURL, if_pos hs]⟩
    · rw [validateURL_resolve_eq resolve u ips hs hres]
      cases hfind : ips.find? isBlockedIP with
      | some ip2 => exact ⟨VErr.blockedIP ip2, rfl⟩
      | none =>
        exfalso
        have hnone := List.find?_eq_none.mp hfind ip hmem
        rw [hblocked] at hnone
        exact hnone rfl
  · intro hok
    by_cases hs : u.scheme ≠ "https" ∧ u.scheme ≠ "http"
    · rw [validateURL, if_pos hs] at hok
      exact Except.noConfusion hok
    · refine ⟨by tauto, ?_⟩
      cases hres : resolve u.host with
      | none =>
        rw [validateURL, if_neg hs, hres] at hok
        exact Except.noConfusion hok
      | some ips =>
        rw [validateURL_resolve_eq resolve u ips hs hres] at hok
        refine ⟨ips, rfl, ?_⟩
        cases hfind : ips.find? isBlockedIP with
        | some ip =>
          rw [hfind] at hok
          exact Except.noConfusion hok
        | none =>
          intro ip hip
          have hnone := List.find?_eq_none.mp hfind ip hip
          cases hb : isBlockedIP ip with
          | false => rfl
          | true => exact absurd hb hnone

/-- C8 witness: an ftp URL is rejected for its scheme, a URL resolving to
127.0.0.1 is rejected as blocked, and an accepted https URL has an
http(s) scheme with all resolved addresses public. -/
theorem validateURL_spec_witness :
    validateURL (fun _ => some [⟨93, 184, 216, 34⟩]) ⟨"ftp", "example.com"⟩ =
        Except.error VErr.unsupportedScheme
    ∧ (∃ e, validateURL (fun _ => some [⟨127, 0, 0, 1⟩]) ⟨"http", "localhost"⟩ =
        Except.error e)
    ∧ (((⟨"https", "example.com"⟩ : URL).scheme = "http" ∨
          (⟨"https", "example.com"⟩ : URL).scheme = "https") ∧
        ∃ ips, (fun (_ : String) => some [(⟨93, 184, 216, 34⟩ : IPv4)]) "example.com" = some ips ∧
          ∀ ip ∈ ips, isBlockedIP ip = false) :=
  ⟨(validateURL_spec _ _).1 ⟨by decide, by decide⟩,
   (validateURL_spec _ _).2.1 [⟨127, 0, 0, 1⟩] ⟨127, 0, 0, 1⟩ rfl (by decide) (by decide),
   (validateURL_spec (fun _ => some [⟨93, 184, 216, 34⟩]) ⟨"https", "example.com"⟩).2.2 rfl⟩

/-! ### Scheduler / worker (`internal/queue/queue.go`, src/unnamed/part_014)

The bounded job channel is a `List String` with explicit capacity; store
and runner results are passed in explicitly; `processJob` is modelled by
the ordered list of state-mutating effects it performs. -/

/-- `Queue.Enqueue`: a non-blocking send on the buffered channel — succeeds
iff the channel holds fewer than `cap` ids, otherwise `ErrQueueFull`. -/
def enqueue (cap : Nat) (pending : List String) (jobID : String) :
    Except Unit (List String) :=
  if pending.length < cap then Except.ok (pending ++ [jobID])
  else Except.error ()

/-- Outcome of `store.Get` as seen by `processJob`: `ErrJobNotFound` or
another store error (both cause an early return). -/
inductive StoreErr where
  | notFound
  | ioError
deriving DecidableEq, Repr

/-- Error returned by `worker.Run`; on kill the context's error is returned
unchanged (`worker.go`: `if ctx.Err() != nil { return "", ctx.Err() }`), so
the two context sentinels are distinguished constructors. -/
inductive RunErr where
  | canceled
  | deadlineExceeded
  | other (msg : String)
deriving DecidableEq, Repr

/-- State-mutating effects of `processJob`, in program order. -/
inductive Effect where
  | markProcessing
  | notifyStatusProcessing
  | spawnProcess
  | updateStatus (st : Status) (result : String) (errMsg : String)
  | notifyResult (st : Status) (result : String) (errMsg : String)
  | webhookSend (url : String)
deriving DecidableEq, Repr

/-- Inputs determining one `processJob` execution: the `store.Get` result,
whether `MarkProcessing` succeeded, the `worker.Run` outcome, and the
configured `JobTimeoutMinutes`. -/
structure WorkerInput where
  get : Except StoreErr Job
  markOk : Bool
  runResult : Except RunErr String
  timeoutMinutes : Nat

/-- The result text after the JSON post-processing step: code fences are
stripped only when `response_format == "json"` and the run succeeded; a
failed run leaves the empty result from `worker.Run`. -/
def effectiveResult (j : Job) (runResult : Except RunErr String) : String :=
  match runResult with
  | Except.ok r =>
    if j.responseFormat = "json" then String.mk (stripCodeFences r.toList) else r
  | Except.error _ => ""

/-- The terminal status and error message computed by `processJob`'s switch
on `runErr`. -/
def runOutcome (runResult : Except RunErr String) (timeoutMinutes : Nat) :
    Status × String :=
  match runResult with
  | Except.ok _ => (Status.completed, "")
  | Except.error RunErr.canceled => (Status.cancelled, "job cancelled by user")
  | Except.error RunErr.deadlineExceeded =>
    (Status.failed, "job timed out after " ++ toString timeoutMinutes ++ "m")
  | Except.error (RunErr.other msg) => (Status.failed, msg)

/-- `finalizeJob`: update the store, emit the closing `result` event, and
dispatch the webhook when a callback URL is set. -/
def finalizeJob (st : Status) (result errMsg callbackURL : String) :
    List Effect :=
  Effect.updateStatus st result errMsg ::
    Effect.notifyResult st result errMsg ::
      (if callbackURL ≠ "" then [Effect.webhookSend callbackURL] else [])

/-- `processJob` from `internal/queue/queue.go` as its effect trace: get the
job (errors return early); skip if already cancelled; mark processing (an
error returns early); notify, spawn the runner, post-process, compute the
terminal outcome, finalize. -/
def processJob (inp : WorkerInput) : List Effect :=
  match inp.get with
  | Except.error _ => []
  | Except.ok j =>
    if j.status = Status.cancelled then []
    else if inp.markOk = false then [Effect.markProcessing]
    else
      Effect.markProcessing :: Effect.notifyStatusProcessing ::
        Effect.spawnProcess ::
          finalizeJob (runOutcome inp.runResult inp.timeoutMinutes).1
            (effectiveResult j inp.runResult)
            (runOutcome inp.runResult inp.timeoutMinutes).2 j.callbackURL

/-- C6: for a dequeued job whose stored status is cancelled the worker
performs no state mutation — the effect trace is empty, so in particular
`MarkProcessing` is never called and no external process is spawned. -/
theorem processJob_skips_cancelled (inp : WorkerInput) (j : Job)
    (hget : inp.get = Except.ok j) (hc : j.status = Status.cancelled) :
    processJob inp = [] ∧ Effect.markProcessing ∉ processJob inp ∧
      Effect.spawnProcess ∉ processJob inp := by
  have h : processJob inp = [] := by
    unfold processJob
    rw [hget]
    simp [hc]
  refine ⟨h, ?_, ?_⟩ <;> simp [h]

/-- C6 witness: a concrete cancelled job is skipped without effects. -/
theorem processJob_skips_cancelled_witness :
    processJob ⟨Except.ok ⟨"j", "p", "", "haiku", Status.cancelled, "", "",
        "", "", "", 0, none, none⟩, true, Except.ok "out", 0⟩ = [] ∧
      Effect.markProcessing ∉ processJob ⟨Except.ok ⟨"j", "p", "", "haiku",
        Status.cancelled, "", "", "", "", "", 0, none, none⟩, true,
        Except.ok "out", 0⟩ ∧
      Effect.spawnProcess ∉ processJob ⟨Except.ok ⟨"j", "p", "", "haiku",
        Status.cancelled, "", "", "", "", "", 0, none, none⟩, true,
        Except.ok "out", 0⟩ :=
  processJob_skips_cancelled _ _ rfl rfl

/-- C7: the terminal status recorded by the worker is computed from the
runner's error: success maps to completed; the cancellation sentinel maps to
cancelled with message "job cancelled by user"; the deadline sentinel maps
to failed with message "job timed out after Nm"; any other error maps to
failed with that error's text. -/
theorem processJob_terminal_mapping (inp : WorkerInput) (j : Job)
    (hget : inp.get = Except.ok j) (hc : j.status ≠ Status.cancelled)
    (hmark : inp.markOk = true) :
    (∀ r, inp.runResult = Except.ok r →
      Effect.updateStatus Status.completed (effectiveResult j inp.runResult) ""
        ∈ processJob inp)
    ∧ (inp.runResult = Except.error RunErr.canceled →
      Effect.updateStatus Status.cancelled "" "job cancelled by user"
        ∈ processJob inp)
    ∧ (inp.runResult = Except.error RunErr.deadlineExceeded →
      Effect.updateStatus Status.failed ""
          ("job timed out after " ++ toString inp.timeoutMinutes ++ "m")
        ∈ processJob inp)
    ∧ (∀ msg, inp.runResult = Except.error (RunErr.other msg) →
      Effect.updateStatus Status.failed "" msg ∈ processJob inp) := by
  have htrace : processJob inp =
      Effect.markProcessing :: Effect.notifyStatusProcessing ::
        Effect.spawnProcess ::
          finalizeJob (runOutcome inp.runResult inp.timeoutMinutes).1
            (effectiveResult j inp.runResult)
            (runOutcome inp.runResult inp.timeoutMinutes).2 j.callbackURL := by
    unfold processJob
    rw [hget]
    simp [hc, hmark]
  refine ⟨?_, ?_, ?_, ?_⟩
  · intro r hr
    rw [htrace]
    simp [finalizeJob, runOutcome, hr]
  · intro hr
    rw [htrace]
    simp [finalizeJob, runOutcome, hr, effectiveResult]
  · intro hr
    rw [htrace]
    simp [finalizeJob, runOutcome, hr, effectiveResult]
  · intro msg hr
    rw [htrace]
    simp [finalizeJob, runOutcome, hr, effectiveResult]

/-- C7 witness: a run killed by the deadline on a 30-minute timeout records
failed with the timeout message. -/
theorem processJob_terminal_mapping_witness :
    Effect.updateStatus Status.failed "" ("job timed out after " ++ toString 30 ++ "m")
      ∈ processJob ⟨Except.ok ⟨"j", "p", "", "haiku", Status.queued, "", "",
        "", "", "", 0, none, none⟩, true, Except.error RunErr.deadlineExceeded, 30⟩ :=
  (processJob_terminal_mapping _ _ rfl (by decide) rfl).2.2.1 rfl

/-! ### SQLite store (`SQLiteStore` implementation, src/internal/job/sqlite_test.go)

The `jobs` table is modelled as a `List Job`; `time.Now().UTC()` becomes an
explicit `now : Nat` argument taken at each call. -/

/-- `SQLiteStore.UpdateStatus`: `UPDATE jobs SET status, result, error,
completed_at WHERE id = ?`, where `completed_at` is the current time for a
terminal status and NULL otherwise. -/
def updateStatus (store : List Job) (id : String) (st : Status)
    (result errMsg : String) (now : Nat) : List Job :=
  store.map fun j =>
    if j.id = id then
      { j with
        status := st
        result := result
        error := errMsg
        completedAt := if st.isTerminal then some now else none }
    else j

/-- C4 counterexample: two `UpdateStatus` calls with identical arguments
but successive clock readings (10 then 11) leave a record whose
`completed_at` differs from the single-call record, so the double call does
not equal the single call in all fields. -/
theorem updateStatus_not_idempotent :
    updateStatus
        (updateStatus [⟨"j1", "p", "", "haiku", Status.queued, "", "", "",
          "", "", 0, none, none⟩] "j1" Status.completed "r" "" 10)
        "j1" Status.completed "r" "" 11 ≠
      updateStatus [⟨"j1", "p", "", "haiku", Status.queued, "", "", "",
        "", "", 0, none, none⟩] "j1" Status.completed "r" "" 10 := by decide

/-- C4 (amended): calling `UpdateStatus` twice with identical status,
result, and error arguments equals one call performed at the second call's
clock reading: every field agrees except `completed_at`, which carries the
later timestamp (and the records coincide exactly when both calls observe
the same clock value). -/
theorem updateStatus_absorbs (store : List Job) (id : String) (st : Status)
    (result errMsg : String) (t₁ t₂ : Nat) :
    updateStatus (updateStatus store id st result errMsg t₁) id st result errMsg t₂ =
      updateStatus store id st result errMsg t₂ := by
  unfold updateStatus
  rw [List.map_map]
  congr 1
  funext j
  by_cases hj : j.id = id
  · simp [hj]
  · simp [hj]

/-- Descending `created_at` order used by `List`'s `ORDER BY created_at
DESC`. -/
def createdDesc (a b : Job) : Prop := b.createdAt ≤ a.createdAt

instance : DecidableRel createdDesc := fun _ _ => Nat.decLe _ _

instance : IsTotal Job createdDesc := ⟨fun a b => le_total b.createdAt a.createdAt⟩

instance : IsTrans Job createdDesc := ⟨fun _ _ _ hab hbc => le_trans hbc hab⟩

/-- `SQLiteStore.List`: clamp `limit` (`<= 0` becomes 20, `> 100` becomes
100) and `offset` (`< 0` becomes 0); `COUNT(*)` is the table size; rows come
ordered by `created_at DESC` with `LIMIT ? OFFSET ?`. -/
def listJobs (store : List Job) (limit offset : Int) : List Job × Nat :=
  let limit := if limit ≤ 0 then 20 else limit
  let limit := if limit > 100 then 100 else limit
  let offset := if offset < 0 then 0 else offset
  let sorted := List.insertionSort createdDesc store
  ((sorted.drop offset.toNat).take limit.toNat, store.length)

/-- The clamped limit: `<= 0` becomes the default 20, `> 100` becomes
100. -/
def clampLimit (limit : Int) : Int :=
  if limit ≤ 0 then 20 else if limit > 100 then 100 else limit

/-- Unfolding of `listJobs`: the two sequential limit clamps equal
`clampLimit` and the offset clamp is `Int.toNat`-compatible. -/
theorem listJobs_eq (store : List Job) (limit offset : Int) :
    listJobs store limit offset =
      (((List.insertionSort createdDesc store).drop
          ((if offset < 0 then 0 else offset).toNat)).take
            (clampLimit limit).toNat,
        store.length) := by
  unfold listJobs clampLimit
  by_cases h1 : limit ≤ 0
  · simp only [if_pos h1]
    norm_num
  · simp only [if_neg h1]

/-- C9: `List` returns rows ordered by `created_at` descending together
with the total count, at most the clamped limit of rows; `limit <= 0` is
replaced by the default 20, `limit > 100` is clamped to 100, and a negative
offset is clamped to 0. -/
theorem listJobs_spec (store : List Job) (limit offset : Int) :
    List.Sorted createdDesc (listJobs store limit offset).1
    ∧ (listJobs store limit offset).2 = store.length
    ∧ (listJobs store limit offset).1.length ≤ (clampLimit limit).toNat
    ∧ (limit ≤ 0 → listJobs store limit offset = listJobs store 20 offset)
    ∧ (limit > 100 → listJobs store limit offset = listJobs store 100 offset)
    ∧ (offset < 0 → listJobs store limit offset = listJobs store limit 0) := by
  refine ⟨?_, rfl, ?_, ?_, ?_, ?_⟩
  · have hs : List.Sorted createdDesc (List.insertionSort createdDesc store) :=
      List.sorted_insertionSort createdDesc store
    rw [listJobs_eq]
    exact hs.sublist ((List.take_sublist _ _).trans (List.drop_sublist _ _))
  · rw [listJobs_eq]
    exact List.length_take_le _ _
  · intro h
    rw [listJobs_eq, listJobs_eq]
    have hc : clampLimit limit = clampLimit 20 := by
      unfold clampLimit
      rw [if_pos h]
      norm_num
    rw [hc]
  · intro h
    rw [listJobs_eq, listJobs_eq]
    have hc : clampLimit limit = clampLimit 100 := by
      unfold clampLimit
      rw [if_neg (by omega), if_pos h]
      norm_num
    rw [hc]
  · intro h
    rw [listJobs_eq, listJobs_eq]
    rw [if_pos h, if_neg (by norm_num : ¬ (0 : Int) < 0)]

/-- C9 witness: a two-row table queried with out-of-range `limit = -1` and
`offset = -2` obeys the order, count, bound and clamping equations. -/
theorem listJobs_spec_witness :
    List.Sorted createdDesc
        (listJobs [⟨"a", "p", "", "haiku", Status.queued, "", "", "", "", "",
          1, none, none⟩, ⟨"b", "p", "", "haiku", Status.queued, "", "", "",
          "", "", 2, none, none⟩] (-1) (-2)).1
    ∧ listJobs [⟨"a", "p", "", "haiku", Status.queued, "", "", "", "", "",
          1, none, none⟩, ⟨"b", "p", "", "haiku", Status.queued, "", "", "",
          "", "", 2, none, none⟩] (-1) (-2) =
        listJobs [⟨"a", "p", "", "haiku", Status.queued, "", "", "", "", "",
          1, none, none⟩, ⟨"b", "p", "", "haiku", Status.queued, "", "", "",
          "", "", 2, none, none⟩] 20 (-2)
    ∧ listJobs [⟨"a", "p", "", "haiku", Status.queued, "", "", "", "", "",
          1, none, none⟩, ⟨"b", "p", "", "haiku", Status.queued, "", "", "",
          "", "", 2, none, none⟩] (-1) (-2) =
        listJobs [⟨"a", "p", "", "haiku", Status.queued, "", "", "", "", "",
          1, none, none⟩, ⟨"b", "p", "", "haiku", Status.queued, "", "", "",
          "", "", 2, none, none⟩] (-1) 0 :=
  ⟨(listJobs_spec _ (-1) (-2)).1,
   (listJobs_spec _ (-1) (-2)).2.2.2.1 (by norm_num),
   (listJobs_spec _ (-1) (-2)).2.2.2.2.2 (by norm_num)⟩

/-! ### Intake handler (`internal/api/handler.go`) and SSE entry
(src/unnamed/part_008) -/

/-- `CreateJob` from `internal/api/handler.go`, after JSON decoding: default
the model, validate (400 on failure), build the record with status queued
and the request's callback URL verbatim, persist, enqueue (any enqueue
error — including `ErrQueueFull` — is written as 500 "failed to enqueue
job"), else 202.  Returns (HTTP status, store rows, pending queue). -/
def createJob (defaultModel : String) (store : List Job) (qcap : Nat)
    (pending : List String) (req : CreateRequest) (id : String) (now : Nat) :
    Nat × List Job × List String :=
  let req := if req.model = "" then { req with model := defaultModel } else req
  match req.validate with
  | Except.error _ => (400, store, pending)
  | Except.ok _ =>
    let j : Job :=
      { id := id
        prompt := req.prompt
        systemPrompt := req.systemPrompt
        model := req.model
        status := Status.queued
        result := ""
        error := ""
        callbackURL := req.callbackURL
        metadata := req.metadata
        responseFormat := req.responseFormat
        createdAt := now
        startedAt := none
        completedAt := none }
    let store2 := store ++ [j]
    match enqueue qcap pending j.id with
    | Except.error _ => (500, store2, pending)
    | Except.ok pending2 => (202, store2, pending2)

/-- C1: evaluating `CreateJob` on a valid request against a full queue:
the persisted record remains queued, but the handler answers 500 ("failed
to enqueue job"), not the 503 that `ErrQueueFull`'s own documentation
prescribes. -/
theorem createJob_queueFull_500 :
    (createJob "haiku" [] 1 ["other"] ⟨"hello", "", "", "", "", ""⟩ "job-1" 5).1 = 500
    ∧ (createJob "haiku" [] 1 ["other"] ⟨"hello", "", "", "", "", ""⟩ "job-1" 5).1 ≠ 503
    ∧ (createJob "haiku" [] 1 ["other"] ⟨"hello", "", "", "", "", ""⟩ "job-1" 5).2.1 =
        [⟨"job-1", "hello", "", "haiku", Status.queued, "", "", "", "", "",
          5, none, none⟩]
    ∧ ∀ j ∈ (createJob "haiku" [] 1 ["other"] ⟨"hello", "", "", "", "", ""⟩
        "job-1" 5).2.1, j.status = Status.queued := by decide

/-- Characterization of `CreateRequest.Validate`: it accepts exactly when
the prompt is non-empty, the model is empty or valid, and the response
format is one of the three allowed values. -/
theorem validate_ok_iff (r : CreateRequest) :
    r.validate = Except.ok () ↔
      (r.prompt ≠ "" ∧ (r.model = "" ∨ validModel r.model = true) ∧
        (r.responseFormat = "" ∨ r.responseFormat = "text" ∨
          r.responseFormat = "json")) := by
  unfold CreateRequest.validate
  split_ifs with h1 h2 h3
  · simp [h1]
  · refine iff_of_false (by simp) ?_
    rintro ⟨-, hm, -⟩
    rcases hm with hm | hm
    · exact h2.1 hm
    · exact h2.2 hm
  · refine iff_of_false (by simp) ?_
    rintro ⟨-, -, hf⟩
    rcases hf with hf | hf | hf
    · exact h3.1 hf
    · exact h3.2.1 hf
    · exact h3.2.2 hf
  · refine iff_of_true rfl ⟨h1, ?_, ?_⟩
    · by_cases hm : r.model = ""
      · exact Or.inl hm
      · refine Or.inr ?_
        by_cases hv : validModel r.model = true
        · exact hv
        · exact absurd ⟨hm, fun hx => hv hx⟩ h2
    · by_cases hf1 : r.responseFormat = ""
      · exact Or.inl hf1
      · by_cases hf2 : r.responseFormat = "text"
        · exact Or.inr (Or.inl hf2)
        · refine Or.inr (Or.inr ?_)
          by_cases hf3 : r.responseFormat = "json"
          · exact hf3
          · exact absurd ⟨hf1, hf2, hf3⟩ h3

/-- C10: job-creation validation checks only the prompt, the defaulted
model, and the response format; every request passing them is accepted 202
with its callback URL persisted verbatim, whatever that string is; and the
URL restrictions live only in `webhook.Send`, where a rejected URL drops
the webhook silently (no retry task is spawned). -/
theorem createJob_callback_unvalidated (defaultModel : String)
    (store : List Job) (qcap : Nat) (pending : List String)
    (req : CreateRequest) (id : String) (now : Nat)
    (hdm : validModel defaultModel = true) :
    ((if req.model = "" then { req with model := defaultModel } else req).validate
        = Except.ok () ↔
      (req.prompt ≠ "" ∧
        validModel (if req.model = "" then defaultModel else req.model) = true ∧
        (req.responseFormat = "" ∨ req.responseFormat = "text" ∨
          req.responseFormat = "json")))
    ∧ ((if req.model = "" then { req with model := defaultModel } else req).validate
          = Except.ok () →
        pending.length < qcap →
        (createJob defaultModel store qcap pending req id now).1 = 202 ∧
        ∃ j, (createJob defaultModel store qcap pending req id now).2.1 =
            store ++ [j] ∧
          j.callbackURL = req.callbackURL ∧ j.status = Status.queued)
    ∧ (∀ resolve u post rnd e, validateURL resolve u = Except.error e →
        webhookSend resolve u post rnd = none) := by
  refine ⟨?_, ?_, ?_⟩
  · by_cases hm : req.model = ""
    · rw [if_pos hm, if_pos hm, validate_ok_iff]
      simp [hdm]
    · rw [if_neg hm, if_neg hm, validate_ok_iff]
      simp [hm]
  · intro hval hq
    have hcj : createJob defaultModel store qcap pending req id now =
        (202, store ++
          [⟨id,
            (if req.model = "" then { req with model := defaultModel } else req).prompt,
            (if req.model = "" then { req with model := defaultModel } else req).systemPrompt,
            (if req.model = "" then { req with model := defaultModel } else req).model,
            Status.queued, "", "",
            (if req.model = "" then { req with model := defaultModel } else req).callbackURL,
            (if req.model = "" then { req with model := defaultModel } else req).metadata,
            (if req.model = "" then { req with model := defaultModel } else req).responseFormat,
            now, none, none⟩],
          pending ++ [id]) := by
      unfold createJob
      simp only [hval]
      unfold enqueue
      rw [if_pos hq]
    rw [hcj]
    refine ⟨rfl, ⟨_, rfl, ?_, rfl⟩⟩
    by_cases hm : req.model = "" <;> simp [hm]
  · intro resolve u post rnd e he
    unfold webhookSend
    rw [he]

/-- C10 witness: a callback URL with an ftp scheme pointing at a loopback
host is accepted 202 and stored verbatim at creation, and the same URL is
silently dropped inside `webhook.Send`. -/
theorem createJob_callback_unvalidated_witness :
    ((createJob "haiku" [] 1 [] ⟨"hi", "", "", "ftp://127.0.0.1/hook", "", ""⟩
        "id1" 0).1 = 202 ∧
      ∃ j, (createJob "haiku" [] 1 [] ⟨"hi", "", "", "ftp://127.0.0.1/hook", "", ""⟩
          "id1" 0).2.1 = [] ++ [j] ∧
        j.callbackURL = "ftp://127.0.0.1/hook" ∧ j.status = Status.queued)
    ∧ webhookSend (fun _ => some [⟨127, 0, 0, 1⟩]) ⟨"ftp", "127.0.0.1"⟩
        (fun _ => Except.ok 200) (fun _ => 0) = none :=
  ⟨(createJob_callback_unvalidated "haiku" [] 1 []
      ⟨"hi", "", "", "ftp://127.0.0.1/hook", "", ""⟩ "id1" 0 (by decide)).2.1
      rfl (by decide),
   (createJob_callback_unvalidated "haiku" [] 1 []
      ⟨"hi", "", "", "ftp://127.0.0.1/hook", "", ""⟩ "id1" 0 (by decide)).2.2
      _ _ _ _ VErr.unsupportedScheme rfl⟩

/-- What `StreamSSE` does on connect, before any event loop. -/
inductive SSEInit where
  | storeError
  | notFound
  | immediateResult (j : Job)
  | subscribeAndStream (j : Job)
deriving DecidableEq, Repr

/-- The connect-time dispatch of `StreamSSE` (src/unnamed/part_008): store
errors and missing jobs answer with HTTP errors; a job whose status is
completed or failed gets one `result` event and an immediate return; any
other status subscribes to the fan-out registry and streams. -/
def streamSSE (getRes : Except Unit (Option Job)) : SSEInit :=
  match getRes with
  | Except.error _ => SSEInit.storeError
  | Except.ok none => SSEInit.notFound
  | Except.ok (some j) =>
    if j.status = Status.completed ∨ j.status = Status.failed then
      SSEInit.immediateResult j
    else
      SSEInit.subscribeAndStream j

/-- C2: the SSE handler's terminal check tests only completed and failed,
so a connection on a job whose stored status is cancelled — a terminal
status per `Status.IsTerminal` — subscribes to the fan-out registry and
streams instead of writing one `result` event and returning (completed and
failed jobs do get the immediate `result`). -/
theorem streamSSE_cancelled_subscribes :
    Status.isTerminal Status.cancelled = true
    ∧ streamSSE (Except.ok (some ⟨"j2", "p", "", "haiku", Status.cancelled,
        "", "job cancelled by user", "", "", "", 0, none, some 1⟩)) =
      SSEInit.subscribeAndStream ⟨"j2", "p", "", "haiku", Status.cancelled,
        "", "job cancelled by user", "", "", "", 0, none, some 1⟩
    ∧ streamSSE (Except.ok (some ⟨"j3", "p", "", "haiku", Status.completed,
        "out", "", "", "", "", 0, none, some 1⟩)) =
      SSEInit.immediateResult ⟨"j3", "p", "", "haiku", Status.completed,
        "out", "", "", "", "", 0, none, some 1⟩
    ∧ streamSSE (Except.ok (some ⟨"j4", "p", "", "haiku", Status.failed,
        "", "boom", "", "", "", 0, none, some 1⟩)) =
      SSEInit.immediateResult ⟨"j4", "p", "", "haiku", Status.failed,
        "", "boom", "", "", "", 0, none, some 1⟩ :=
  ⟨by decide, rfl, rfl, rfl⟩

end ClaudeGate
